import Mathlib

/-!
Verification of the negotiation / pipeline-lifecycle layer of a
WebRTC camera server (`server.py`).

The embedding models the observable behaviour of the `WebRTCCamera`
class and of `AppServer.handle_ws`:

* a `Camera` record mirrors the fields of `WebRTCCamera` (configuration
  values plus the `pipeline` / `webrtc` handles, modelled as Booleans:
  `true` means the handle is set, `false` means it is `None`);
* an `Env` record carries the facts about the host that `build_pipeline`
  probes at run time (which GStreamer element factories exist, whether
  linking succeeds, whether the PLAYING transition succeeds);
* every operation returns the list of externally observable `Event`s it
  produces: outbound signaling messages (`OutMsg`) and signal emissions
  to the media engine (`EngineCall`);
* SDP parsing (`GstSdp.sdp_message_new_from_text`) is external library
  code, modelled by an oracle `sdpParse : String → Bool` saying which
  strings parse.
-/

/-- Outbound signaling messages (the JSON objects sent over the
websocket by `server.py`). -/
inductive OutMsg where
  | hello (message : String)
  | offer (sdp : String)
  | pong
  | iceOut (candidate : String) (sdpMLineIndex : Int)
  | error (message : String)
  deriving DecidableEq, Repr

/-- Signal emissions and state changes issued to the media pipeline
engine (GStreamer `emit` calls and `set_state` calls in `server.py`). -/
inductive EngineCall where
  | createOffer
  | setLocalDescription
  | setRemoteDescription (sdp : String)
  | addIceCandidate (mlineindex : Int) (candidate : String)
  | setStatePlaying
  | setStateNull
  deriving DecidableEq, Repr

/-- One externally observable effect of the session code. -/
inductive Event where
  | send (m : OutMsg)
  | engine (c : EngineCall)
  deriving DecidableEq, Repr

/-- State of one `WebRTCCamera` instance.  `pipeline` and `webrtc` are
`true` when the corresponding handle is set (non-`None` in Python). -/
structure Camera where
  width : Int
  height : Int
  fps : Int
  bitrate : Int
  stun_server : Option String
  source : String
  v4l2_dev : Option String
  force_sw : Bool
  pipeline : Bool
  webrtc : Bool
  deriving DecidableEq, Repr

/-- Host facts probed by `build_pipeline` and `start`: which element
factories exist, whether the static links succeed, and whether the
pipeline accepts the PLAYING state. -/
structure Env where
  niceAvailable : Bool
  libcamerasrcAvailable : Bool
  v4l2srcAvailable : Bool
  hwEncAvailable : Bool
  x264Available : Bool
  webrtcbinAvailable : Bool
  linkOk : Bool
  playOk : Bool
  deriving DecidableEq, Repr

/-- Observable outcome of encoder selection inside `build_pipeline`:
which encoder was picked, whether the hardware encoder was attempted,
and the properties set on the chosen encoder, together with the format
constraint of the `caps_pre_enc` capsfilter. -/
structure EncoderSetup where
  using_hw : Bool
  hwAttempted : Bool
  bitrateProp : Option Int
  tune : Option String
  speedPreset : Option String
  keyIntMax : Option Int
  preEncFormat : String
  deriving DecidableEq, Repr

/-- Encoder selection in `build_pipeline` (server.py lines 98-125):
unless `force_sw`, try `v4l2h264enc`; on the hardware path set the raw
bits-per-second bitrate (when positive) and constrain pre-encode caps to
NV12; otherwise fall back to `x264enc` with kilobit bitrate
`max 1 (bitrate // 1000)`, zerolatency tune, ultrafast preset,
`key-int-max = max 1 (fps * 2)`, and I420 pre-encode caps.  Fails when
no encoder factory exists. -/
def pickEncoder (c : Camera) (env : Env) : Except String EncoderSetup :=
  if !c.force_sw && env.hwEncAvailable then
    .ok { using_hw := true
          hwAttempted := true
          bitrateProp := if c.bitrate > 0 then some c.bitrate else none
          tune := none
          speedPreset := none
          keyIntMax := none
          preEncFormat := "NV12" }
  else if env.x264Available then
    .ok { using_hw := false
          hwAttempted := !c.force_sw
          bitrateProp := if c.bitrate > 0 then some (max 1 (Int.fdiv c.bitrate 1000)) else none
          tune := some "zerolatency"
          speedPreset := some "ultrafast"
          keyIntMax := some (max 1 (c.fps * 2))
          preEncFormat := "I420" }
  else
    .error "Missing H.264 encoder. Install gstreamer1.0-plugins-ugly (x264enc) or provide v4l2h264enc."

/-- Source-element acquisition in `build_pipeline` (lines 71-87). -/
def sourceCheck (c : Camera) (env : Env) : Except String Unit :=
  if c.source == "libcamera" then
    if env.libcamerasrcAvailable then .ok ()
    else .error "Missing plugin libcamerasrc. Install gstreamer1.0-libcamera."
  else if c.source == "v4l2" then
    if env.v4l2srcAvailable then .ok ()
    else .error "Missing plugin v4l2src. Install gstreamer1.0-plugins-good."
  else if c.source == "test" then .ok ()
  else .error ("Unknown source: " ++ c.source)

/-- `WebRTCCamera.build_pipeline` (lines 64-179): preflight libnice,
acquire the source, select the encoder, require `webrtcbin`, link the
chain, and only then store the `pipeline` and `webrtc` handles.  Every
failure raises before the handles are assigned, so on error the camera
is unchanged. -/
def build_pipeline (c : Camera) (env : Env) : Except String (Camera × EncoderSetup) :=
  if !env.niceAvailable then
    .error "Missing libnice elements (nicesrc/nicesink). Install: sudo apt-get install -y gstreamer1.0-nice libnice10"
  else
    match sourceCheck c env with
    | .error e => .error e
    | .ok _ =>
      match pickEncoder c env with
      | .error e => .error e
      | .ok es =>
        if !env.webrtcbinAvailable then
          .error "Missing plugin webrtcbin. Install gstreamer1.0-plugins-bad."
        else if !env.linkOk then
          .error "Failed to link pipeline elements"
        else
          .ok ({ c with pipeline := true, webrtc := true }, es)

/-- `WebRTCCamera.start` (lines 181-187): build the pipeline when no
handle exists yet, then request the PLAYING state; a FAILURE return
raises after the handles were already stored by `build_pipeline`.
Result: camera after the call, events produced, and the raised error
message if any. -/
def start (c : Camera) (env : Env) : Camera × List Event × Option String :=
  if c.pipeline then
    if env.playOk then (c, [.engine .setStatePlaying], none)
    else (c, [.engine .setStatePlaying], some "Failed to set pipeline to PLAYING")
  else
    match build_pipeline c env with
    | .error e => (c, [], some e)
    | .ok (c', _) =>
      if env.playOk then (c', [.engine .setStatePlaying], none)
      else (c', [.engine .setStatePlaying], some "Failed to set pipeline to PLAYING")

/-- `WebRTCCamera.stop` (lines 189-194): only when a pipeline handle
exists, set the NULL state and clear both handles; otherwise a no-op. -/
def stop (c : Camera) : Camera × List Event :=
  if c.pipeline then
    ({ c with pipeline := false, webrtc := false }, [.engine .setStateNull])
  else (c, [])

/-- `WebRTCCamera._create_and_send_offer` (lines 203-219): emits one
`create-offer` request to the engine (the offer message itself is sent
by the completion callback `on_offer_created`). -/
def create_and_send_offer : List Event :=
  [.engine .createOffer]

/-- `WebRTCCamera._on_negotiation_needed` (lines 221-223). -/
def on_negotiation_needed : List Event :=
  create_and_send_offer

/-- The `on_offer_created` completion callback (lines 204-215): on a
successful reply, set the local description and send exactly one
`offer` message; on an exception, send one `error` message. -/
def on_offer_created (reply : Except String String) : List Event :=
  match reply with
  | .ok sdp => [.engine .setLocalDescription, .send (.offer sdp)]
  | .error ex => [.send (.error ("Offer error: " ++ ex))]

/-- `WebRTCCamera._on_ice_candidate` (lines 225-226). -/
def on_ice_candidate (mlineindex : Int) (candidate : String) : List Event :=
  [.send (.iceOut candidate mlineindex)]

/-- `WebRTCCamera.renegotiate` (lines 228-230): re-runs the offer path
when the `webrtc` handle exists, else does nothing. -/
def renegotiate (c : Camera) : List Event :=
  if c.webrtc then create_and_send_offer else []

/-- `WebRTCCamera.handle_sdp_answer` (lines 232-240): returns silently
when no `webrtc` handle exists; raises `Failed to parse SDP answer`
when the text does not parse; otherwise emits `set-remote-description`.
`sdpParse` is the oracle for the external SDP parser. -/
def handle_sdp_answer (c : Camera) (sdpParse : String → Bool) (sdp_text : String) :
    Except String (List Event) :=
  if !c.webrtc then .ok []
  else if !sdpParse sdp_text then .error "Failed to parse SDP answer"
  else .ok [.engine (.setRemoteDescription sdp_text)]

/-- `WebRTCCamera.handle_ice_candidate` (lines 242-244): forwards the
candidate to the engine only when the `webrtc` handle exists. -/
def handle_ice_candidate (c : Camera) (candidate : String) (mlineindex : Int) : List Event :=
  if c.webrtc then [.engine (.addIceCandidate mlineindex candidate)] else []

/-- The `"ice"` sub-object of an inbound message: `data.get("ice", {})`
followed by `.get("candidate")` and `.get("sdpMLineIndex", 0)`. -/
structure IceField where
  candidate : Option String
  sdpMLineIndex : Option Int
  deriving DecidableEq, Repr

/-- The fields `handle_ws` reads from a decoded JSON object:
`type`, `sdp`, and the `ice` sub-object.  A missing field is `none`. -/
structure JsonMsg where
  mtype : Option String
  sdp : Option String
  ice : Option IceField
  deriving DecidableEq, Repr

/-- One inbound websocket frame: a TEXT frame (with `none` when
`json.loads` fails), an ERROR frame, or any other frame type, which the
loop ignores. -/
inductive WsFrame where
  | text (data : Option JsonMsg)
  | wsError
  | other
  deriving DecidableEq, Repr

/-- The body of the `async for msg in ws` loop in `AppServer.handle_ws`
(lines 318-343): decode failures are skipped; `answer` is delegated to
`handle_sdp_answer` with exceptions converted to one `error` message;
`ice` forwards a truthy candidate with its media-line index (default 0);
`ping` answers `pong`; `ready` calls `renegotiate`; every other `type`
value, and ERROR/other frames, do nothing. -/
def handleFrame (c : Camera) (sdpParse : String → Bool) (f : WsFrame) :
    Camera × List Event :=
  match f with
  | .text none => (c, [])
  | .text (some m) =>
    match m.mtype with
    | none => (c, [])
    | some t =>
      if t == "answer" then
        match handle_sdp_answer c sdpParse (m.sdp.getD "") with
        | .ok evs => (c, evs)
        | .error ex => (c, [.send (.error ("SDP answer error: " ++ ex))])
      else if t == "ice" then
        match (m.ice.getD { candidate := none, sdpMLineIndex := none }).candidate with
        | none => (c, [])
        | some cand =>
          if cand == "" then (c, [])
          else
            (c, handle_ice_candidate c cand
                  ((m.ice.getD { candidate := none, sdpMLineIndex := none }).sdpMLineIndex.getD 0))
      else if t == "ping" then (c, [.send .pong])
      else if t == "ready" then (c, renegotiate c)
      else (c, [])
  | .wsError => (c, [])
  | .other => (c, [])

/-- The receive loop of `handle_ws`: fold `handleFrame` over the
inbound frames, concatenating the produced events. -/
def runLoop (c : Camera) (sdpParse : String → Bool) (frames : List WsFrame) :
    Camera × List Event :=
  match frames with
  | [] => (c, [])
  | f :: fs =>
    let step := handleFrame c sdpParse f
    let rest := runLoop step.1 sdpParse fs
    (rest.1, step.2 ++ rest.2)

/-- The per-process media configuration held by `AppServer` and passed
to each fresh `WebRTCCamera`. -/
structure PipelineConfig where
  width : Int
  height : Int
  fps : Int
  bitrate : Int
  stun : Option String
  source : String
  v4l2_dev : Option String
  force_sw : Bool
  deriving DecidableEq, Repr

/-- Construction of the per-connection `WebRTCCamera` (lines 305-309):
both handles start as `None`. -/
def mkCamera (cfg : PipelineConfig) : Camera :=
  { width := cfg.width
    height := cfg.height
    fps := cfg.fps
    bitrate := cfg.bitrate
    stun_server := cfg.stun
    source := cfg.source
    v4l2_dev := cfg.v4l2_dev
    force_sw := cfg.force_sw
    pipeline := false
    webrtc := false }

/-- Result of one full `handle_ws` session: the events produced on the
channel and toward the engine, the final camera state, and whether an
exception escaped the loop. -/
structure SessionRun where
  events : List Event
  cameraFinal : Camera
  raised : Bool
  deriving DecidableEq, Repr

/-- The `error` message sent by `handle_ws` when `camera.start()`
raised (lines 313-315); empty when start succeeded. -/
def startReport (o : Option String) : List Event :=
  match o with
  | some e => [.send (.error ("Camera start failed: " ++ e))]
  | none => []

/-- The frames the receive loop actually handles: all of them on a
normal exit, only the first `n` when an exception interrupts the loop
after `n` frames. -/
def loopFrames (frames : List WsFrame) (interrupt : Option Nat) : List WsFrame :=
  match interrupt with
  | some n => frames.take n
  | none => frames

/-- `AppServer.handle_ws` (lines 295-347): send `hello`, build and
start the camera (start failures are caught and reported as one `error`
message, the connection stays open), run the receive loop, and in the
`finally` block stop the camera on every exit path.  `interrupt = some n`
models an exception raised in the loop after `n` frames were handled:
the remaining frames are not processed but the `finally` still runs. -/
def handle_ws (cfg : PipelineConfig) (env : Env) (sdpParse : String → Bool)
    (frames : List WsFrame) (interrupt : Option Nat) : SessionRun :=
  let started := start (mkCamera cfg) env
  let looped := runLoop started.1 sdpParse (loopFrames frames interrupt)
  let stopped := stop looped.1
  { events := [.send (.hello "ws-ready")] ++ started.2.1 ++ startReport started.2.2
      ++ looped.2 ++ stopped.2
    cameraFinal := stopped.1
    raised := interrupt.isSome }

/-- Number of engine NULL-state requests (pipeline stops) in a trace. -/
def countNull (evs : List Event) : Nat :=
  evs.countP fun e =>
    match e with
    | .engine .setStateNull => true
    | _ => false

/-- Number of outbound `offer` messages in a trace. -/
def countOfferMsgs (evs : List Event) : Nat :=
  evs.countP fun e =>
    match e with
    | .send (.offer _) => true
    | _ => false

/-- Number of outbound `error` messages in a trace. -/
def countErrorMsgs (evs : List Event) : Nat :=
  evs.countP fun e =>
    match e with
    | .send (.error _) => true
    | _ => false

/-- Whether a JSON object carries one of the four dispatched `type`
values. -/
def knownType (m : JsonMsg) : Bool :=
  match m.mtype with
  | some t => t == "answer" || t == "ice" || t == "ping" || t == "ready"
  | none => false

/-- The decoded JSON object of an `ice` message. -/
def iceJson (cand : Option String) (ml : Option Int) : JsonMsg :=
  { mtype := some "ice"
    sdp := none
    ice := some { candidate := cand, sdpMLineIndex := ml } }

/-- The decoded JSON object of an `answer` message. -/
def answerJson (s : Option String) : JsonMsg :=
  { mtype := some "answer", sdp := s, ice := none }

/-- The decoded JSON object of a payload-free typed message
(`ready`, `ping`, or an unrecognized type). -/
def typedJson (t : String) : JsonMsg :=
  { mtype := some t, sdp := none, ice := none }

/-- The per-process configuration used by the concrete witnesses:
the argparse defaults of `server.py` with the synthetic-test source. -/
def cfgTest : PipelineConfig :=
  { width := 1280
    height := 720
    fps := 30
    bitrate := 2500000
    stun := none
    source := "test"
    v4l2_dev := none
    force_sw := false }

/-- A host with every element factory present and a working pipeline. -/
def envFull : Env :=
  { niceAvailable := true
    libcamerasrcAvailable := true
    v4l2srcAvailable := true
    hwEncAvailable := true
    x264Available := true
    webrtcbinAvailable := true
    linkOk := true
    playOk := true }

/-- A host where everything builds but the PLAYING transition fails. -/
def envPlayFail : Env := { envFull with playOk := false }

/-- A host missing the libnice elements, so construction fails. -/
def envNoNice : Env := { envFull with niceAvailable := false }

/-- A camera whose pipeline has been built (both handles set). -/
def camReady : Camera :=
  { mkCamera cfgTest with pipeline := true, webrtc := true }

/-- An SDP-parse oracle accepting every string. -/
def spAccept : String → Bool := fun _ => true

/-- An SDP-parse oracle rejecting every string. -/
def spReject : String → Bool := fun _ => false

/-- `cfgTest` with software encoding forced. -/
def cfgTestSw : PipelineConfig := { cfgTest with force_sw := true }

/-- `cfgTestSw` with the low bitrate 500 bps. -/
def cfgTestSwLow : PipelineConfig := { cfgTestSw with bitrate := 500 }

/-- The encoder setup `pickEncoder` computes for `cfgTest` on
`envFull`: the hardware path. -/
def esHw : EncoderSetup :=
  { using_hw := true
    hwAttempted := true
    bitrateProp := some 2500000
    tune := none
    speedPreset := none
    keyIntMax := none
    preEncFormat := "NV12" }

/-- The encoder setup `pickEncoder` computes for `cfgTestSw` on
`envFull`: the software path with the 2,500,000 bps input floored to
2500 kbps. -/
def esSw : EncoderSetup :=
  { using_hw := false
    hwAttempted := false
    bitrateProp := some 2500
    tune := some "zerolatency"
    speedPreset := some "ultrafast"
    keyIntMax := some 60
    preEncFormat := "I420" }

/-- The encoder setup for `cfgTestSwLow`: 500 bps floors to the minimum
of 1 kbps. -/
def esSwLow : EncoderSetup := { esSw with bitrateProp := some 1 }

theorem handle_sdp_answer_ok_no_null (c : Camera) (sp : String → Bool) (s : String)
    (evs : List Event) (h : handle_sdp_answer c sp s = .ok evs) : countNull evs = 0 := by
  unfold handle_sdp_answer at h
  split_ifs at h <;> cases h <;> rfl

theorem renegotiate_no_null (c : Camera) : countNull (renegotiate c) = 0 := by
  unfold renegotiate
  split <;> rfl

theorem handle_ice_no_null (c : Camera) (cand : String) (ml : Int) :
    countNull (handle_ice_candidate c cand ml) = 0 := by
  unfold handle_ice_candidate
  split <;> rfl

theorem handleFrame_props (c : Camera) (sp : String → Bool) (f : WsFrame) :
    (handleFrame c sp f).1 = c ∧ countNull (handleFrame c sp f).2 = 0 := by
  unfold handleFrame
  repeat' split
  all_goals refine ⟨rfl, ?_⟩
  all_goals first
    | rfl
    | exact renegotiate_no_null _
    | exact handle_ice_no_null _ _ _
    | exact handle_sdp_answer_ok_no_null _ _ _ _ (by assumption)

theorem countNull_append (a b : List Event) :
    countNull (a ++ b) = countNull a + countNull b := by
  simp [countNull, List.countP_append]

theorem runLoop_props (c : Camera) (sp : String → Bool) (frames : List WsFrame) :
    (runLoop c sp frames).1 = c ∧ countNull (runLoop c sp frames).2 = 0 := by
  induction frames generalizing c with
  | nil => exact ⟨rfl, rfl⟩
  | cons f fs ih =>
    have hf := handleFrame_props c sp f
    have hr := ih (handleFrame c sp f).1
    constructor
    · simp only [runLoop]
      rw [hr.1, hf.1]
    · simp [runLoop, countNull_append, hf.2, hr.2]

theorem build_pipeline_ok_handles (c : Camera) (env : Env) (p : Camera × EncoderSetup)
    (h : build_pipeline c env = .ok p) : p.1.pipeline = true ∧ p.1.webrtc = true := by
  unfold build_pipeline at h
  repeat' split at h
  all_goals cases h
  all_goals exact ⟨rfl, rfl⟩

theorem start_props (cfg : PipelineConfig) (env : Env) :
    (start (mkCamera cfg) env).1.pipeline = (start (mkCamera cfg) env).1.webrtc
    ∧ countNull (start (mkCamera cfg) env).2.1 = 0 := by
  unfold start
  split
  · next hp => exact absurd hp (by simp [mkCamera])
  · split
    · next e heq => exact ⟨rfl, rfl⟩
    · next c' es heq =>
      have hh := build_pipeline_ok_handles _ _ (c', es) heq
      have h1 : c'.pipeline = true := hh.1
      have h2 : c'.webrtc = true := hh.2
      split
      · exact ⟨by rw [h1, h2], rfl⟩
      · exact ⟨by rw [h1, h2], rfl⟩

theorem stop_props (c : Camera) :
    countNull (stop c).2 = (if c.pipeline then 1 else 0)
    ∧ (stop c).1.pipeline = false
    ∧ (c.webrtc = c.pipeline → (stop c).1.webrtc = false) := by
  cases hp : c.pipeline
  · refine ⟨?_, ?_, ?_⟩ <;> simp [stop, hp, countNull]
  · refine ⟨?_, ?_, ?_⟩ <;> simp [stop, hp, countNull]

theorem countNull_report (o : Option String) :
    countNull (startReport o) = 0 := by
  cases o <;> rfl

theorem countNull_cons (e : Event) (l : List Event) :
    countNull (e :: l)
      = (if (match e with | .engine .setStateNull => true | _ => false)
          then 1 else 0) + countNull l := by
  cases e with
  | send m => simp [countNull, List.countP_cons]
  | engine k => cases k <;> simp [countNull, List.countP_cons, Nat.add_comm]

/-- Claim C6: for every session, on every exit path from the connection
receive loop (normal close, transport error, or an exception raised
mid-loop) the pipeline stop operation runs: the final camera owns no
pipeline and no engine handle, and the trace contains the NULL-state
release exactly once when a pipeline was built and never otherwise. -/
theorem pipeline_stop_on_every_exit (cfg : PipelineConfig) (env : Env) (sp : String → Bool)
    (frames : List WsFrame) (interrupt : Option Nat) :
    (handle_ws cfg env sp frames interrupt).cameraFinal.pipeline = false
    ∧ (handle_ws cfg env sp frames interrupt).cameraFinal.webrtc = false
    ∧ countNull (handle_ws cfg env sp frames interrupt).events
      = (if (start (mkCamera cfg) env).1.pipeline then 1 else 0) := by
  obtain ⟨hsw, hsn⟩ := start_props cfg env
  obtain ⟨hl1, hl2⟩ := runLoop_props (start (mkCamera cfg) env).1 sp
      (loopFrames frames interrupt)
  obtain ⟨ht1, ht2, ht3⟩ := stop_props (start (mkCamera cfg) env).1
  simp only [handle_ws]
  rw [hl1]
  refine ⟨ht2, ht3 hsw.symm, ?_⟩
  simp [countNull_cons, countNull_append, hsn, hl2, countNull_report, ht1]

/-- Claim C7: `stop` is idempotent: a second call in a row is a no-op
releasing nothing, a call before any pipeline was built is a no-op, and
after `stop` both the pipeline and the engine handle are cleared.  The
hypothesis records the code invariant that the two handles are set and
cleared together. -/
theorem stop_idempotent (c : Camera) (hcoupled : c.webrtc = c.pipeline) :
    (stop c).1.pipeline = false
    ∧ (stop c).1.webrtc = false
    ∧ stop (stop c).1 = ((stop c).1, [])
    ∧ (c.pipeline = false → stop c = (c, [])) := by
  cases hp : c.pipeline
  · have hw : c.webrtc = false := by rw [hcoupled, hp]
    simp [stop, hp, hw]
  · simp [stop, hp]

/-- Witness for C7 at a camera with a built pipeline. -/
theorem stop_idempotent_witness :
    (stop camReady).1.pipeline = false
    ∧ (stop camReady).1.webrtc = false
    ∧ stop (stop camReady).1 = ((stop camReady).1, [])
    ∧ (camReady.pipeline = false → stop camReady = (camReady, [])) :=
  stop_idempotent camReady rfl

/-- Claim C1: for a session with a built pipeline, the local
negotiation-needed callback and an inbound `ready` message each issue
exactly one offer-creation request to the engine; the completion
callback then sends exactly one `offer` message; and `ready` triggers
the offer path unconditionally in any state, in particular right after
an answer has been applied, yielding a second offer request. -/
theorem offer_per_trigger (c : Camera) (sp : String → Bool) (sdp goodSdp : String)
    (hw : c.webrtc = true) (hg : sp goodSdp = true) :
    on_negotiation_needed = [.engine .createOffer]
    ∧ handleFrame c sp (.text (some { mtype := some "ready", sdp := none, ice := none }))
        = (c, [.engine .createOffer])
    ∧ on_offer_created (.ok sdp) = [.engine .setLocalDescription, .send (.offer sdp)]
    ∧ countOfferMsgs (on_offer_created (.ok sdp)) = 1
    ∧ runLoop c sp
        [.text (some { mtype := some "answer", sdp := some goodSdp, ice := none }),
         .text (some { mtype := some "ready", sdp := none, ice := none })]
        = (c, [.engine (.setRemoteDescription goodSdp), .engine .createOffer]) := by
  refine ⟨rfl, ?_, rfl, rfl, ?_⟩
  · simp [handleFrame, renegotiate, hw, create_and_send_offer]
  · simp [runLoop, handleFrame, handle_sdp_answer, hw, hg, renegotiate, create_and_send_offer]

/-- Witness for C1 on a built camera and an accepting SDP oracle. -/
theorem offer_per_trigger_witness :
    on_negotiation_needed = [.engine .createOffer]
    ∧ handleFrame camReady spAccept (.text (some { mtype := some "ready", sdp := none, ice := none }))
        = (camReady, [.engine .createOffer])
    ∧ on_offer_created (.ok "v=0") = [.engine .setLocalDescription, .send (.offer "v=0")]
    ∧ countOfferMsgs (on_offer_created (.ok "v=0")) = 1
    ∧ runLoop camReady spAccept
        [.text (some { mtype := some "answer", sdp := some "v=0", ice := none }),
         .text (some { mtype := some "ready", sdp := none, ice := none })]
        = (camReady, [.engine (.setRemoteDescription "v=0"), .engine .createOffer]) :=
  offer_per_trigger camReady spAccept "v=0" "v=0" rfl rfl

/-- Claim C2: an inbound `answer` whose SDP text fails to parse - on a
session whose engine exists, so parsing is reached - produces exactly
one `error` message, no set-remote-description call, and leaves the
camera state unchanged. -/
theorem bad_answer_single_error (c : Camera) (sp : String → Bool) (sdp : String)
    (hw : c.webrtc = true) (hp : sp sdp = false) :
    handleFrame c sp (.text (some { mtype := some "answer", sdp := some sdp, ice := none }))
      = (c, [.send (.error "SDP answer error: Failed to parse SDP answer")]) := by
  simp [handleFrame, handle_sdp_answer, hw, hp]

/-- Witness for C2 with a rejecting SDP oracle. -/
theorem bad_answer_single_error_witness :
    handleFrame camReady spReject
        (.text (some { mtype := some "answer", sdp := some "not-an-sdp", ice := none }))
      = (camReady, [.send (.error "SDP answer error: Failed to parse SDP answer")]) :=
  bad_answer_single_error camReady spReject "not-an-sdp" rfl rfl

/-- Claim C5: an inbound `ice` message is dropped silently (no error, no
message, no engine call) when no engine instance exists, and is
forwarded immediately with its media-line index when the engine
exists. -/
theorem ice_candidate_drop_or_forward (c : Camera) (sp : String → Bool)
    (cand : String) (ml : Int) (hc : cand ≠ "") :
    (c.webrtc = false →
      handleFrame c sp (.text (some (iceJson (some cand) (some ml)))) = (c, []))
    ∧ (c.webrtc = true →
      handleFrame c sp (.text (some (iceJson (some cand) (some ml))))
        = (c, [.engine (.addIceCandidate ml cand)])) := by
  have hb : (cand == "") = false := by simp [hc]
  constructor <;> intro hw <;>
    simp [handleFrame, iceJson, handle_ice_candidate, hw, hb]

/-- Witness for C5: the candidate is dropped on a fresh camera and
forwarded on a built one. -/
theorem ice_candidate_drop_or_forward_witness :
    handleFrame (mkCamera cfgTest) spAccept (.text (some (iceJson (some "a=candidate:1") (some 0))))
      = (mkCamera cfgTest, [])
    ∧ handleFrame camReady spAccept (.text (some (iceJson (some "a=candidate:1") (some 0))))
      = (camReady, [.engine (.addIceCandidate 0 "a=candidate:1")]) :=
  ⟨(ice_candidate_drop_or_forward (mkCamera cfgTest) spAccept "a=candidate:1" 0 (by decide)).1 rfl,
   (ice_candidate_drop_or_forward camReady spAccept "a=candidate:1" 0 (by decide)).2 rfl⟩

/-- Claim C9: an inbound `answer` arriving while no engine instance
exists returns silently: no message (in particular no error), no engine
call, no state change. -/
theorem answer_without_engine_ignored (c : Camera) (sp : String → Bool)
    (sdpField : Option String) (hw : c.webrtc = false) :
    handleFrame c sp (.text (some { mtype := some "answer", sdp := sdpField, ice := none }))
      = (c, []) := by
  simp [handleFrame, handle_sdp_answer, hw]

/-- Witness for C9: even with a rejecting SDP oracle, a fresh camera
ignores the answer without any error. -/
theorem answer_without_engine_ignored_witness :
    handleFrame (mkCamera cfgTest) spReject
        (.text (some { mtype := some "answer", sdp := some "garbage", ice := none }))
      = (mkCamera cfgTest, []) :=
  answer_without_engine_ignored (mkCamera cfgTest) spReject (some "garbage") rfl

/-- Claim C10: a text frame that is not valid JSON, or that decodes to
an object whose `type` is none of answer/ice/ping/ready, is skipped
silently: no event, no state change, and the loop continues with the
remaining frames. -/
theorem unknown_frames_skipped (c : Camera) (sp : String → Bool) (m : JsonMsg)
    (fs : List WsFrame) (hm : knownType m = false) :
    handleFrame c sp (.text none) = (c, [])
    ∧ handleFrame c sp (.text (some m)) = (c, [])
    ∧ runLoop c sp (.text none :: fs) = runLoop c sp fs
    ∧ runLoop c sp (.text (some m) :: fs) = runLoop c sp fs := by
  have h2 : handleFrame c sp (.text (some m)) = (c, []) := by
    cases hmt : m.mtype with
    | none => simp [handleFrame, hmt]
    | some t =>
      unfold knownType at hm
      rw [hmt] at hm
      simp only [Bool.or_eq_false_iff] at hm
      obtain ⟨⟨⟨h1, h3⟩, h4⟩, h5⟩ := hm
      rw [beq_eq_false_iff_ne] at h1 h3 h4 h5
      simp [handleFrame, hmt, h1, h3, h4, h5]
  have h0 : handleFrame c sp (.text none) = (c, []) := rfl
  refine ⟨rfl, h2, ?_, ?_⟩
  · simp [runLoop, h0]
  · simp [runLoop, h2]

/-- Witness for C10 with an unrecognized type value and a ping frame
still handled afterwards. -/
theorem unknown_frames_skipped_witness :
    handleFrame camReady spAccept (.text none) = (camReady, [])
    ∧ handleFrame camReady spAccept
        (.text (some { mtype := some "status", sdp := none, ice := none })) = (camReady, [])
    ∧ runLoop camReady spAccept
        (.text none :: [.text (some { mtype := some "ping", sdp := none, ice := none })])
        = runLoop camReady spAccept [.text (some { mtype := some "ping", sdp := none, ice := none })]
    ∧ runLoop camReady spAccept
        (.text (some { mtype := some "status", sdp := none, ice := none })
          :: [.text (some { mtype := some "ping", sdp := none, ice := none })])
        = runLoop camReady spAccept [.text (some { mtype := some "ping", sdp := none, ice := none })] :=
  unknown_frames_skipped camReady spAccept
    { mtype := some "status", sdp := none, ice := none }
    [.text (some { mtype := some "ping", sdp := none, ice := none })] (by decide)

/-- Claim C3: unless the force-software flag is set the hardware
encoder is attempted first and software is only the fallback; the
software path carries the zerolatency tune, the ultrafast preset, a
key-int-max of max 1 (2 x fps) and I420 pre-encode caps, while the
hardware path carries none of the three tunings and NV12 caps. -/
theorem encoder_selection_policy (c : Camera) (env : Env) (es : EncoderSetup)
    (h : pickEncoder c env = .ok es) :
    (es.using_hw = true ↔ c.force_sw = false ∧ env.hwEncAvailable = true)
    ∧ es.hwAttempted = !c.force_sw
    ∧ (es.using_hw = true →
        es.tune = none ∧ es.speedPreset = none ∧ es.keyIntMax = none
        ∧ es.preEncFormat = "NV12")
    ∧ (es.using_hw = false →
        es.tune = some "zerolatency" ∧ es.speedPreset = some "ultrafast"
        ∧ es.keyIntMax = some (max 1 (c.fps * 2)) ∧ es.preEncFormat = "I420") := by
  unfold pickEncoder at h
  split at h
  · next h1 =>
    cases h
    simp only [Bool.and_eq_true, Bool.not_eq_true'] at h1
    exact ⟨by simp [h1.1, h1.2], by simp [h1.1],
      fun _ => ⟨rfl, rfl, rfl, rfl⟩, by simp⟩
  · next h1 =>
    split at h
    · next h2 =>
      cases h
      simp only [Bool.and_eq_true, Bool.not_eq_true'] at h1
      exact ⟨by simp [h1], rfl, by simp, fun _ => ⟨rfl, rfl, rfl, rfl⟩⟩
    · next h2 => cases h

/-- Witness for C3 evaluating the hardware selection on `cfgTest`. -/
theorem encoder_selection_policy_witness :
    (esHw.using_hw = true ↔ (mkCamera cfgTest).force_sw = false ∧ envFull.hwEncAvailable = true)
    ∧ esHw.hwAttempted = !(mkCamera cfgTest).force_sw
    ∧ (esHw.using_hw = true →
        esHw.tune = none ∧ esHw.speedPreset = none ∧ esHw.keyIntMax = none
        ∧ esHw.preEncFormat = "NV12")
    ∧ (esHw.using_hw = false →
        esHw.tune = some "zerolatency" ∧ esHw.speedPreset = some "ultrafast"
        ∧ esHw.keyIntMax = some (max 1 ((mkCamera cfgTest).fps * 2))
        ∧ esHw.preEncFormat = "I420") :=
  encoder_selection_policy (mkCamera cfgTest) envFull esHw (by rfl)

/-- Claim C4: for positive configured bitrate, the software encoder
path floors the value to kilobits with a minimum of one
(max 1 (bitrate // 1000)); the hardware path passes the raw
bits-per-second value unchanged. -/
theorem bitrate_parameter (c : Camera) (env : Env) (es : EncoderSetup)
    (hb : 0 < c.bitrate) (h : pickEncoder c env = .ok es) :
    (es.using_hw = false → es.bitrateProp = some (max 1 (Int.fdiv c.bitrate 1000)))
    ∧ (es.using_hw = true → es.bitrateProp = some c.bitrate) := by
  unfold pickEncoder at h
  split at h
  · next h1 =>
    cases h
    exact ⟨by simp, fun _ => by simp [hb]⟩
  · next h1 =>
    split at h
    · next h2 =>
      cases h
      exact ⟨fun _ => by simp [hb], by simp⟩
    · next h2 => cases h

/-- Witness for C4: 2,500,000 bps floors to 2500 kbps and 500 bps to
1 kbps on the software path; the hardware path keeps 2,500,000. -/
theorem bitrate_parameter_witness :
    ((esSw.using_hw = false →
        esSw.bitrateProp = some (max 1 (Int.fdiv (mkCamera cfgTestSw).bitrate 1000)))
      ∧ (esSw.using_hw = true → esSw.bitrateProp = some (mkCamera cfgTestSw).bitrate))
    ∧ ((esSwLow.using_hw = false →
        esSwLow.bitrateProp = some (max 1 (Int.fdiv (mkCamera cfgTestSwLow).bitrate 1000)))
      ∧ (esSwLow.using_hw = true → esSwLow.bitrateProp = some (mkCamera cfgTestSwLow).bitrate))
    ∧ (esHw.using_hw = true → esHw.bitrateProp = some (mkCamera cfgTest).bitrate)
    ∧ esSw.bitrateProp = some 2500
    ∧ esSwLow.bitrateProp = some 1 :=
  ⟨bitrate_parameter (mkCamera cfgTestSw) envFull esSw (by decide) (by rfl),
   bitrate_parameter (mkCamera cfgTestSwLow) envFull esSwLow (by decide) (by rfl),
   (bitrate_parameter (mkCamera cfgTest) envFull esHw (by decide) (by rfl)).2,
   rfl, rfl⟩

/-- Counterexample to claim C8 as stated: on a host where every element
factory exists but the pipeline refuses the PLAYING transition, `start`
raises (one start-failure error is reported) yet the session is not
left without a pipeline: both handles remain set and a subsequent ice
candidate is still forwarded to the engine. -/
theorem start_failure_pipeline_retained_cex :
    (start (mkCamera cfgTest) envPlayFail).2.2 = some "Failed to set pipeline to PLAYING"
    ∧ (start (mkCamera cfgTest) envPlayFail).1.pipeline = true
    ∧ (start (mkCamera cfgTest) envPlayFail).1.webrtc = true
    ∧ (handle_ws cfgTest envPlayFail spAccept
        [.text (some (iceJson (some "a=candidate:1") (some 0)))] none).events
      = [.send (.hello "ws-ready"), .engine .setStatePlaying,
         .send (.error "Camera start failed: Failed to set pipeline to PLAYING"),
         .engine (.addIceCandidate 0 "a=candidate:1"),
         .engine .setStateNull] :=
  ⟨rfl, rfl, rfl, rfl⟩

/-- Claim C8 (amended): when `start` raises, exactly one start-failure
error message is sent, the connection stays open, and the receive loop
still runs over all frames; the session trace is exactly the hello, the
start events, the single error report, the loop events, and the final
stop events.  (When construction itself failed the handles stay clear;
when only the PLAYING transition failed they remain set.) -/
theorem start_failure_reported_loop_continues (cfg : PipelineConfig) (env : Env)
    (sp : String → Bool) (frames : List WsFrame) (e : String)
    (hfail : (start (mkCamera cfg) env).2.2 = some e) :
    (handle_ws cfg env sp frames none).events
      = [.send (.hello "ws-ready")] ++ (start (mkCamera cfg) env).2.1
        ++ [.send (.error ("Camera start failed: " ++ e))]
        ++ (runLoop (start (mkCamera cfg) env).1 sp frames).2
        ++ (stop (start (mkCamera cfg) env).1).2
    ∧ (handle_ws cfg env sp frames none).raised = false := by
  have hl1 := (runLoop_props (start (mkCamera cfg) env).1 sp frames).1
  refine ⟨?_, rfl⟩
  simp only [handle_ws, loopFrames]
  rw [hl1, hfail]
  rfl

/-- Witness for the amended C8 on a host missing libnice: construction
fails, one error is reported, and a ping in the loop is still
answered. -/
theorem start_failure_reported_loop_continues_witness :
    (handle_ws cfgTest envNoNice spAccept [.text (some (typedJson "ping"))] none).events
      = [.send (.hello "ws-ready")] ++ (start (mkCamera cfgTest) envNoNice).2.1
        ++ [.send (.error ("Camera start failed: "
              ++ "Missing libnice elements (nicesrc/nicesink). Install: sudo apt-get install -y gstreamer1.0-nice libnice10"))]
        ++ (runLoop (start (mkCamera cfgTest) envNoNice).1 spAccept
              [.text (some (typedJson "ping"))]).2
        ++ (stop (start (mkCamera cfgTest) envNoNice).1).2
    ∧ (handle_ws cfgTest envNoNice spAccept [.text (some (typedJson "ping"))] none).raised = false :=
  start_failure_reported_loop_continues cfgTest envNoNice spAccept
    [.text (some (typedJson "ping"))]
    "Missing libnice elements (nicesrc/nicesink). Install: sudo apt-get install -y gstreamer1.0-nice libnice10"
    (by rfl)
